import Mathlib

/-!
Verification of the dictation-command interpreter and the derived-measurement
calculator of the periodontal charting application.

The definitions below are a shallow embedding of the TypeScript source:
* `normalizeCommand` and `parseCommand` embed the functions of the same names
  in `src/components/Tooth.tsx` (the regex passes are embedded as explicit
  scanners that follow JavaScript regular-expression semantics: leftmost
  match, ordered alternation, greedy quantifiers, non-overlapping global
  replacement that continues after each match, `\b` word boundaries over
  `[A-Za-z0-9_]`).
* `getUniversalToothId` and `getPalmerNotation` embed the functions of the
  same names in `src/services/treatmentAnalysisService.ts`.
* `calculateData`, `processTooth` and `applyUpdate` embed `calculateData`,
  `processedData` and `updateChartData` of `src/App.tsx`.
* `stepSession` embeds the command-handling effect of `InfoPanel` in
  `src/components/Tooth.tsx` together with `handleToothSelect` of
  `src/App.tsx`.

Strings are modelled over their character lists; characters are ASCII (the
application's command vocabulary is ASCII).
-/

/-- Probing surface, `'buccal' | 'lingual'` in the source. -/
inductive Surface where
  | buccal
  | lingual
deriving DecidableEq, Fintype

/-- The positional part of an anatomical site label (`disto_`/`mid_`/`mesio_`). -/
inductive SitePos where
  | disto
  | mid
  | mesio
deriving DecidableEq, Fintype

/-- One of the six anatomical sites, `MeasurementLocation` in `types.ts`
(a site label is `pos_surface`, e.g. `disto_buccal`). -/
abbrev Loc := SitePos × Surface

/-- `MeasurementType` enum of `types.ts`. -/
inductive MeasurementType where
  | pocketDepth
  | recession
  | bleeding
  | plaque
  | mobility
  | furcation
deriving DecidableEq, Fintype

/-- A per-site value mapping, `PerioSiteMeasurements` of `types.ts`:
an object with one optional entry per site key. -/
structure SiteMap (α : Type) where
  disto_buccal : Option α := none
  mid_buccal : Option α := none
  mesio_buccal : Option α := none
  disto_lingual : Option α := none
  mid_lingual : Option α := none
  mesio_lingual : Option α := none
deriving DecidableEq

/-- Key lookup on a `PerioSiteMeasurements` object. -/
def SiteMap.get {α : Type} (m : SiteMap α) (l : Loc) : Option α :=
  match l with
  | (.disto, .buccal) => m.disto_buccal
  | (.mid, .buccal) => m.mid_buccal
  | (.mesio, .buccal) => m.mesio_buccal
  | (.disto, .lingual) => m.disto_lingual
  | (.mid, .lingual) => m.mid_lingual
  | (.mesio, .lingual) => m.mesio_lingual

/-- Key assignment on a `PerioSiteMeasurements` object
(`measurementBlock[location] = value` in `App.tsx`). -/
def SiteMap.set {α : Type} (m : SiteMap α) (l : Loc) (v : α) : SiteMap α :=
  match l with
  | (.disto, .buccal) => { m with disto_buccal := some v }
  | (.mid, .buccal) => { m with mid_buccal := some v }
  | (.mesio, .buccal) => { m with mesio_buccal := some v }
  | (.disto, .lingual) => { m with disto_lingual := some v }
  | (.mid, .lingual) => { m with mid_lingual := some v }
  | (.mesio, .lingual) => { m with mesio_lingual := some v }

/-- `ToothData` of `types.ts`: raw measurement fields of one tooth.
Pocket depth and recession store numbers; bleeding and plaque store booleans
(as the steppers and toggles of the UI and the parser produce them).
An absent measurement object and an empty one behave identically downstream,
so both are the all-`none` map. -/
structure ToothData where
  pocketDepth : SiteMap Nat := {}
  recession : SiteMap Nat := {}
  bleeding : SiteMap Bool := {}
  plaque : SiteMap Bool := {}
  mobility : Option Nat := none
  furcationBuccal : Option Nat := none
  furcationLingual : Option Nat := none
  isMissing : Bool := false
deriving DecidableEq

/-- Update target: a site key, or one of the special tooth-level keys
(`NonSiteLocation` of `types.ts`). -/
inductive UpdateLoc where
  | site (l : Loc)
  | mobilityLoc
  | furcationBuccalLoc
  | furcationLingualLoc
deriving DecidableEq

/-- A measurement update produced by the parser
(`Update` in `Tooth.tsx`; the parser only ever emits numeric values). -/
structure Update where
  type : MeasurementType
  location : UpdateLoc
  value : Nat
deriving DecidableEq

/-- Result of `parseCommand`: `{ updates, action, contextUpdate }`.
`action` carries the `SELECT_TOOTH` payload when present. -/
structure ParseResult where
  updates : List Update
  action : Option Nat
  contextUpdate : Option Surface
deriving DecidableEq

/-! ## Character classes (JavaScript regex semantics, ASCII range) -/

/-- JavaScript `\s` (ASCII subset). -/
def isWs (c : Char) : Bool :=
  c = ' ' || c = '\t' || c = '\n' || c = '\r'

/-- JavaScript `\w`, the word characters used by `\b` boundaries. -/
def isWordChar (c : Char) : Bool :=
  c.isAlpha || c.isDigit || c = '_'

/-- Numeric value of a decimal digit character. -/
def digitVal (c : Char) : Nat :=
  c.toNat - 48

/-- `parseInt` on a (nonempty) digit string. -/
def charsToNat (l : List Char) : Nat :=
  l.foldl (fun a c => a * 10 + digitVal c) 0

/-- Strip leading and trailing whitespace (JavaScript `String.prototype.trim`). -/
def jsTrim (s : List Char) : List Char :=
  ((s.dropWhile isWs).reverse.dropWhile isWs).reverse

/-! ## The Text Normalizer (`normalizeCommand` in `Tooth.tsx`) -/

/-- One step of `replace(new RegExp("\\b" ++ key ++ "\\b"), "g")`:
scan the string left to right; at a position where the previous original
character is not a word character, where `key` occurs literally, and where
the character after the occurrence (if any) is not a word character, emit
`repl` and continue after the occurrence; otherwise copy one character.
Every synonym key ends in a letter, so after a replacement the boundary
state is "previous character is a word character". Fuel is the remaining
string length; each step consumes at least one character. -/
def replaceWordGo (key repl : List Char) : Nat → Bool → List Char → List Char
  | 0, _, rest => rest
  | _ + 1, _, [] => []
  | fuel + 1, prevWord, c :: cs =>
    if !prevWord && key.isPrefixOf (c :: cs) &&
        (match (c :: cs).drop key.length with
         | [] => true
         | d :: _ => !isWordChar d) then
      repl ++ replaceWordGo key repl fuel true ((c :: cs).drop key.length)
    else
      c :: replaceWordGo key repl fuel (isWordChar c) cs

/-- Whole-word global replacement of `key` by `repl`. -/
def replaceWord (key repl s : List Char) : List Char :=
  replaceWordGo key repl (s.length + 1) false s

/-- The synonym table of `normalizeCommand`, in source (insertion) order. -/
def synonymMap : List (String × String) :=
  [("buckle", "buccal"), ("bocal", "buccal"), ("bucc", "buccal"), ("b", "buccal"),
   ("lingual", "lingual"), ("ling", "lingual"), ("l", "lingual"),
   ("palatal", "lingual"), ("pal", "lingual"),
   ("pocket depth", "pd"), ("pocky", "pd"), ("pocket", "pd"), ("period", "pd"),
   ("depths", "pd"), ("bed", "pd"),
   ("recession", "rec"), ("receding", "rec"),
   ("mobility", "mob"),
   ("bleeding on probing", "bop"), ("bleeding", "bop"),
   ("one", "1"), ("two", "2"), ("three", "3"), ("four", "4"), ("five", "5"),
   ("six", "6"), ("seven", "7"), ("eight", "8"), ("nine", "9"), ("zero", "0")]

/-- One global pass of `replace(/(\d)\s*[,-]\s*(\d)/g, "$1 $2")`:
at a digit followed (through optional whitespace) by a comma or hyphen and
(through optional whitespace) by a second digit, emit the two digits
separated by one space and continue after the second digit (the match
consumes it, so overlapping sequences need the second pass, exactly as in
the source, which runs this replacement twice). -/
def collapseDelimGo : Nat → List Char → List Char
  | 0, rest => rest
  | _ + 1, [] => []
  | fuel + 1, c :: cs =>
    if c.isDigit then
      match cs.dropWhile isWs with
      | d :: r2 =>
        if d = ',' || d = '-' then
          match r2.dropWhile isWs with
          | e :: r4 =>
            if e.isDigit then c :: ' ' :: e :: collapseDelimGo fuel r4
            else c :: collapseDelimGo fuel cs
          | [] => c :: collapseDelimGo fuel cs
        else c :: collapseDelimGo fuel cs
      | [] => c :: collapseDelimGo fuel cs
    else c :: collapseDelimGo fuel cs

/-- Global pass of the digit-sequence delimiter normalization. -/
def collapseDelim (s : List Char) : List Char :=
  collapseDelimGo (s.length + 1) s

/-- Global pass of `replace(/([1-4])-([1-8])/g, "$1 $2")` (quadrant-tooth
hyphen normalization; strict adjacency, no whitespace allowed). -/
def quadHyphenGo : Nat → List Char → List Char
  | 0, rest => rest
  | _ + 1, [] => []
  | fuel + 1, c :: cs =>
    if '1' ≤ c && c ≤ '4' then
      match cs with
      | '-' :: e :: r =>
        if '1' ≤ e && e ≤ '8' then c :: ' ' :: e :: quadHyphenGo fuel r
        else c :: quadHyphenGo fuel cs
      | _ => c :: quadHyphenGo fuel cs
    else c :: quadHyphenGo fuel cs

/-- Global pass of the quadrant-tooth hyphen normalization. -/
def quadHyphen (s : List Char) : List Char :=
  quadHyphenGo (s.length + 1) s

/-- Filler words removed by `normalizeCommand`, in source order. -/
def fillerWords : List String :=
  ["and", "for", "the", "is", "a", "to", "please", "set"]

/-- One global pass of `replace(new RegExp("\\s" ++ word ++ "\\s"), "g")` by a
single space: each `\s` matches exactly one whitespace character, both of
which are consumed by the match (so in `" a a "` only the first `" a "`
matches — the middle space was consumed — leaving `" a "`). -/
def removeFillerGo (w : List Char) : Nat → List Char → List Char
  | 0, rest => rest
  | _ + 1, [] => []
  | fuel + 1, c :: cs =>
    if isWs c && w.isPrefixOf cs &&
        (match cs.drop w.length with
         | d :: _ => isWs d
         | [] => false) then
      ' ' :: removeFillerGo w fuel (cs.drop (w.length + 1))
    else
      c :: removeFillerGo w fuel cs

/-- Global removal of one filler word. -/
def removeFiller (w s : List Char) : List Char :=
  removeFillerGo w (s.length + 1) s

/-- Global pass of `replace(/\s+/g, " ")`. -/
def collapseWsGo : Nat → List Char → List Char
  | 0, rest => rest
  | _ + 1, [] => []
  | fuel + 1, c :: cs =>
    if isWs c then ' ' :: collapseWsGo fuel (cs.dropWhile isWs)
    else c :: collapseWsGo fuel cs

/-- Collapse whitespace runs to single spaces. -/
def collapseWs (s : List Char) : List Char :=
  collapseWsGo (s.length + 1) s

/-- `normalizeCommand` of `Tooth.tsx`: lowercase, trim and wrap in single
spaces; substitute synonyms whole-word in table order; run the digit
delimiter normalization twice; normalize quadrant-tooth hyphens; remove
filler words; collapse whitespace and trim. -/
def normalizeCommand (text : String) : String :=
  let wrapped := ' ' :: jsTrim (text.data.map Char.toLower) ++ [' ']
  let afterSyn := synonymMap.foldl
    (fun s kv => replaceWord kv.1.data kv.2.data s) wrapped
  let afterDelim := collapseDelim (collapseDelim afterSyn)
  let afterQuad := quadHyphen afterDelim
  let afterFiller := fillerWords.foldl (fun s w => removeFiller w.data s) afterQuad
  String.mk (jsTrim (collapseWs afterFiller))

/-! ## Tooth-id conversions (`treatmentAnalysisService.ts`) -/

/-- `getUniversalToothId`: quadrant-based notation to the Universal
Numbering System (1-32); `null` outside quadrant 1-4 / tooth 1-8. -/
def getUniversalToothId (quadrant toothInQuad : Nat) : Option Nat :=
  if quadrant < 1 || quadrant > 4 || toothInQuad < 1 || toothInQuad > 8 then none
  else
    match quadrant with
    | 1 => some (9 - toothInQuad)
    | 2 => some (8 + toothInQuad)
    | 3 => some (24 + toothInQuad)
    | 4 => some (25 - toothInQuad)
    | _ => none

/-- `getPalmerNotation`: Universal tooth id (1-32) to quadrant and
tooth-in-quadrant; `null` outside 1-32. -/
def getPalmerNotation (universalId : Nat) : Option (Nat × Nat) :=
  if universalId < 1 || universalId > 32 then none
  else if 1 ≤ universalId && universalId ≤ 8 then some (1, 9 - universalId)
  else if 9 ≤ universalId && universalId ≤ 16 then some (2, universalId - 8)
  else if 17 ≤ universalId && universalId ≤ 24 then some (4, 25 - universalId)
  else if 25 ≤ universalId && universalId ≤ 32 then some (3, universalId - 24)
  else none

/-! ## The Command Parser (`parseCommand` in `Tooth.tsx`)

Each regex of the source is embedded as a dedicated scanner. The character
classes separating the pieces of every pattern are disjoint (`\s` against
digits and letters), so greedy quantifiers are equivalent to maximal munch,
and ordered alternation is a first-success try chain. -/

/-- The literal pieces of the parser's regexes. -/
def bucLit : List Char := "buccal".data

def lingLit : List Char := "lingual".data

def pdLit : List Char := "pd".data

def recLit : List Char := "rec".data

def mobLit : List Char := "mob".data

def spaceStr : String := " "

/-- Match `\s+` at the head: one required whitespace character, then the
maximal whitespace run; returns the remainder. -/
def matchWsPlus : List Char → Option (List Char)
  | c :: cs => if isWs c then some (cs.dropWhile isWs) else none
  | [] => none

/-- Match a literal followed by `\s+`; returns the remainder. -/
def litThenWs (lit s : List Char) : Option (List Char) :=
  if lit.isPrefixOf s then matchWsPlus (s.drop lit.length) else none

/-- Match `([1-4])\s+([1-8])\b` at the head of the string (the digit half of
the navigation regex; `\b` holds when the next character is absent or not a
word character). -/
def navBare : List Char → Option (Nat × Nat)
  | q :: r1 =>
    if '1' ≤ q && q ≤ '4' then
      match matchWsPlus r1 with
      | some (t :: r3) =>
        if '1' ≤ t && t ≤ '8' then
          match r3 with
          | [] => some (digitVal q, digitVal t)
          | d :: _ => if isWordChar d then none else some (digitVal q, digitVal t)
        else none
      | _ => none
    else none
  | [] => none

/-- Try the navigation regex `(?:(buccal|lingual)\s+)?([1-4])\s+([1-8])\b` at
one start position: the greedy optional group is tried first, with its
alternatives in source order. -/
def navAt (s : List Char) : Option (Option Surface × Nat × Nat) :=
  (litThenWs bucLit s).bind (fun r =>
      (navBare r).map fun qt => (some Surface.buccal, qt.1, qt.2)) <|>
  (litThenWs lingLit s).bind (fun r =>
      (navBare r).map fun qt => (some Surface.lingual, qt.1, qt.2)) <|>
  (navBare s).map fun qt => ((none : Option Surface), qt.1, qt.2)

/-- Leftmost match of the navigation regex: try every start position left to
right (`String.prototype.match` with a non-global regex). -/
def navScanGo : Nat → List Char → Option (Option Surface × Nat × Nat)
  | 0, _ => none
  | fuel + 1, s =>
    match navAt s with
    | some r => some r
    | none =>
      match s with
      | [] => none
      | _ :: cs => navScanGo fuel cs

/-- Leftmost match of the navigation regex over the whole string. -/
def navScan (s : List Char) : Option (Option Surface × Nat × Nat) :=
  navScanGo (s.length + 1) s

/-- Anchored match of `^(\d{1,2})\s+(\d{1,2})\s+(\d{1,2})$` (rapid entry):
three maximal digit runs of length 1-2 separated by whitespace runs, and
nothing else. -/
def rapidMatch (s : List Char) : Option (Nat × Nat × Nat) :=
  let d1 := s.takeWhile Char.isDigit
  if 1 ≤ d1.length && d1.length ≤ 2 then
    match matchWsPlus (s.drop d1.length) with
    | some r1 =>
      let d2 := r1.takeWhile Char.isDigit
      if 1 ≤ d2.length && d2.length ≤ 2 then
        match matchWsPlus (r1.drop d2.length) with
        | some r2 =>
          let d3 := r2.takeWhile Char.isDigit
          if 1 ≤ d3.length && d3.length ≤ 2 && r2.drop d3.length = [] then
            some (charsToNat d1, charsToNat d2, charsToNat d3)
          else none
        | none => none
      else none
    | none => none
  else none

/-- Match `(\d{1,2})\s+` at the head: the maximal digit run must have length
1 or 2 (a longer run makes every greedy choice of the group collide with the
digit that follows it) and be followed by whitespace. Returns the group's
value and the remainder. -/
def digitsThenWs (s : List Char) : Option (Nat × List Char) :=
  let d := s.takeWhile Char.isDigit
  if 1 ≤ d.length && d.length ≤ 2 then
    match matchWsPlus (s.drop d.length) with
    | some r => some (charsToNat d, r)
    | none => none
  else none

/-- Match the trailing `(\d{1,2})` of the full-command regex: at least one
digit; the group takes greedily up to two digits and the rest of the string
is unconstrained (the regex has no anchor). -/
def digitsLoose (s : List Char) : Option Nat :=
  let d := s.takeWhile Char.isDigit
  if 1 ≤ d.length then some (charsToNat (d.take 2)) else none

/-- Try the full-command regex
`(buccal|lingual)\s+(pd|rec)\s+(\d{1,2})\s+(\d{1,2})\s+(\d{1,2})` at one
start position; the second component is the captured kind group (`pd` or
`rec`), verbatim. -/
def fullAt (s : List Char) : Option (Surface × List Char × Nat × Nat × Nat) :=
  let afterKind := fun (r : List Char) =>
    ((litThenWs pdLit r).map fun r2 => (pdLit, r2)) <|>
    ((litThenWs recLit r).map fun r2 => (recLit, r2))
  let digitsPart := fun (surf : Surface) (kind : List Char) (r : List Char) =>
    (digitsThenWs r).bind fun n1r =>
      (digitsThenWs n1r.2).bind fun n2r =>
        (digitsLoose n2r.2).map fun n3 => (surf, kind, n1r.1, n2r.1, n3)
  ((litThenWs bucLit s).bind fun r =>
      (afterKind r).bind fun kr =>
        digitsPart Surface.buccal kr.1 kr.2) <|>
  ((litThenWs lingLit s).bind fun r =>
      (afterKind r).bind fun kr =>
        digitsPart Surface.lingual kr.1 kr.2)

/-- Leftmost match of the full-command regex. -/
def fullScanGo : Nat → List Char → Option (Surface × List Char × Nat × Nat × Nat)
  | 0, _ => none
  | fuel + 1, s =>
    match fullAt s with
    | some r => some r
    | none =>
      match s with
      | [] => none
      | _ :: cs => fullScanGo fuel cs

/-- Leftmost match of the full-command regex over the whole string. -/
def fullScan (s : List Char) : Option (Surface × List Char × Nat × Nat × Nat) :=
  fullScanGo (s.length + 1) s

/-- Try the mobility regex `mob\s+([0-3])` at one start position. -/
def mobAt (s : List Char) : Option Nat :=
  (litThenWs mobLit s).bind fun r =>
    match r with
    | c :: _ => if '0' ≤ c && c ≤ '3' then some (digitVal c) else none
    | [] => none

/-- Leftmost match of the mobility regex. -/
def mobScanGo : Nat → List Char → Option Nat
  | 0, _ => none
  | fuel + 1, s =>
    match mobAt s with
    | some r => some r
    | none =>
      match s with
      | [] => none
      | _ :: cs => mobScanGo fuel cs

/-- Leftmost match of the mobility regex over the whole string. -/
def mobScan (s : List Char) : Option Nat :=
  mobScanGo (s.length + 1) s

/-- Pass 1 (navigation): on a navigation match, convert quadrant and
tooth-in-quadrant and return `SELECT_TOOTH` with the optional surface as
context update and no measurement updates; when `getUniversalToothId`
returns `null` the source does not return, falling through to later passes. -/
def navPass (cs : List Char) : Option ParseResult :=
  match navScan cs with
  | some (surfOpt, q, t) =>
    match getUniversalToothId q t with
    | some toothId => some { updates := [], action := some toothId, contextUpdate := surfOpt }
    | none => none
  | none => none

/-- Pass 2 (contextual rapid entry): requires a truthy `activeSurface` and an
anchored three-number match; produces three PocketDepth updates at the
disto/mid/mesio sites of the active surface. -/
def rapidPass (activeSurface : Option Surface) (cs : List Char) : Option ParseResult :=
  match activeSurface, rapidMatch cs with
  | some surf, some (a, b, c) =>
    some { updates :=
             [{ type := .pocketDepth, location := .site (.disto, surf), value := a },
              { type := .pocketDepth, location := .site (.mid, surf), value := b },
              { type := .pocketDepth, location := .site (.mesio, surf), value := c }],
           action := none, contextUpdate := none }
  | _, _ => none

/-- Pass 3 (full command): `fullMatch[2].startsWith('p')` selects
PocketDepth, anything else Recession; three updates of that kind at the
named surface's sites, plus a context update to that surface. -/
def fullPass (cs : List Char) : Option ParseResult :=
  (fullScan cs).map fun r =>
    let kind : MeasurementType :=
      match r.2.1 with
      | 'p' :: _ => .pocketDepth
      | _ => .recession
    { updates :=
        [{ type := kind, location := .site (.disto, r.1), value := r.2.2.1 },
         { type := kind, location := .site (.mid, r.1), value := r.2.2.2.1 },
         { type := kind, location := .site (.mesio, r.1), value := r.2.2.2.2 }],
      action := none, contextUpdate := some r.1 }

/-- Pass 4 (mobility): one whole-tooth Mobility update. -/
def mobPass (cs : List Char) : Option ParseResult :=
  (mobScan cs).map fun v =>
    { updates := [{ type := .mobility, location := .mobilityLoc, value := v }],
      action := none, contextUpdate := none }

/-- Pass 5 (surface context setter) and the final no-match result. -/
def surfacePass (commandString : String) : ParseResult :=
  match commandString.splitOn spaceStr with
  | [w] =>
    if w = "buccal" then { updates := [], action := none, contextUpdate := some .buccal }
    else if w = "lingual" then { updates := [], action := none, contextUpdate := some .lingual }
    else { updates := [], action := none, contextUpdate := none }
  | _ => { updates := [], action := none, contextUpdate := none }

/-- The pass cascade of `parseCommand` over the normalized command string
(`commandString` in the source): try the passes in order; the first pass
that matches short-circuits all later passes. -/
def parsePasses (activeSurface : Option Surface) (commandString : String) : ParseResult :=
  match navPass commandString.data with
  | some r => r
  | none =>
    match rapidPass activeSurface commandString.data with
    | some r => r
    | none =>
      match fullPass commandString.data with
      | some r => r
      | none =>
        match mobPass commandString.data with
        | some r => r
        | none => surfacePass commandString

/-- `parseCommand` of `Tooth.tsx`: normalize, then run the pass cascade. -/
def parseCommand (text : String) (activeSurface : Option Surface) : ParseResult :=
  parsePasses activeSurface (normalizeCommand text)

/-! ## The Measurement Calculator (`calculateData` in `App.tsx`) -/

/-- The six sites in the order of the `locations` array of `calculateData`. -/
def locations : List Loc :=
  [(.disto, .buccal), (.mid, .buccal), (.mesio, .buccal),
   (.disto, .lingual), (.mid, .lingual), (.mesio, .lingual)]

/-- Body of the `locations.forEach` loop of `calculateData`: set
`cal[loc] = pd + rec` and add this site's risk contributions. Absent values
default to `0` / `false`. -/
def calcStep (tooth : ToothData) (acc : SiteMap Nat × Nat) (loc : Loc) : SiteMap Nat × Nat :=
  let pocketDepth := (tooth.pocketDepth.get loc).getD 0
  let recessionV := (tooth.recession.get loc).getD 0
  let calv := pocketDepth + recessionV
  let r1 := if pocketDepth > 4 then acc.2 + (pocketDepth - 4) else acc.2
  let r2 := if recessionV > 2 then r1 + (recessionV - 2) else r1
  let r3 := if calv > 5 then r2 + (calv - 5) else r2
  let r4 := if (tooth.bleeding.get loc).getD false then r3 + 2 else r3
  (acc.1.set loc calv, r4)

/-- `calculateData` of `App.tsx`: fold the per-site loop over the six sites
starting from an empty `cal` and risk `0`, then add the whole-tooth factors
`mobility * 10`, `furcation.buccal * 8` and `furcation.lingual * 8`. -/
def calculateData (tooth : ToothData) : SiteMap Nat × Nat :=
  let base := locations.foldl (calcStep tooth) ({}, 0)
  (base.1,
   base.2 + (tooth.mobility.getD 0) * 10 + (tooth.furcationBuccal.getD 0) * 8
     + (tooth.furcationLingual.getD 0) * 8)

/-- The per-tooth branch of `processedData` in `App.tsx`: a missing tooth
gets `cal = {}` (the empty mapping) and `riskScore = 0`; otherwise the
Calculator runs. -/
def processTooth (tooth : ToothData) : SiteMap Nat × Nat :=
  if tooth.isMissing then ({}, 0) else calculateData tooth

/-! ## Applying updates and the session driver -/

/-- The per-tooth part of `updateChartData` in `App.tsx`: Mobility sets the
whole-tooth grade (whatever the location), Furcation sets the named side,
any other kind writes `measurements[type][location] = value`. The dictation
parser only emits numeric PocketDepth/Recession/Mobility updates; the
Bleeding/Plaque toggles of the UI store booleans, modelled as storing
whether the value is nonzero. -/
def applyUpdate (tooth : ToothData) (u : Update) : ToothData :=
  match u.type with
  | .mobility => { tooth with mobility := some u.value }
  | .furcation =>
    match u.location with
    | .furcationBuccalLoc => { tooth with furcationBuccal := some u.value }
    | .furcationLingualLoc => { tooth with furcationLingual := some u.value }
    | _ => tooth
  | .pocketDepth =>
    match u.location with
    | .site l => { tooth with pocketDepth := tooth.pocketDepth.set l u.value }
    | _ => tooth
  | .recession =>
    match u.location with
    | .site l => { tooth with recession := tooth.recession.set l u.value }
    | _ => tooth
  | .bleeding =>
    match u.location with
    | .site l => { tooth with bleeding := tooth.bleeding.set l (u.value != 0) }
    | _ => tooth
  | .plaque =>
    match u.location with
    | .site l => { tooth with plaque := tooth.plaque.set l (u.value != 0) }
    | _ => tooth

/-- One charting session: the selected tooth (the `InfoPanel` exists only
while one is selected), the active surface, and the per-tooth records. -/
structure Session where
  selected : Option Nat
  surface : Option Surface
  chart : Nat → ToothData

/-- One dictated command, as handled by the `InfoPanel` effect in
`Tooth.tsx`: parse against the current active surface; a `SELECT_TOOTH`
action goes through `handleToothSelect` of `App.tsx` (ignored for a missing
tooth, deselects when the same tooth is selected again); a context update
sets the active surface; measurement updates apply to the tooth whose panel
issued the command. With no selected tooth there is no panel and no command
input. -/
def stepSession (st : Session) (text : String) : Session :=
  match st.selected with
  | none => st
  | some id =>
    let r := parseCommand text st.surface
    { selected :=
        match r.action with
        | some i =>
          if (st.chart i).isMissing then some id
          else if id = i then none
          else some i
        | none => some id,
      surface :=
        match r.contextUpdate with
        | some s => some s
        | none => st.surface,
      chart := fun i =>
        if i = id then r.updates.foldl applyUpdate (st.chart id) else st.chart i }

/-! ## The spec's tooth-id mapping formula (for the refinement claim) -/

/-- The tooth-id mapping as the spec states it (section 6): quadrant 1 gives
`9 - n`, quadrant 2 gives `8 + n`, quadrant 3 gives `24 + n`, quadrant 4
gives `25 - n`. -/
def specToothIdFormula (q n : Nat) : Nat :=
  if q = 1 then 9 - n
  else if q = 2 then 8 + n
  else if q = 3 then 24 + n
  else 25 - n

/-- `getPalmerNotation` followed by `getUniversalToothId` (the round trip of
the two conversions). -/
def palmerRoundTrip (universalId : Nat) : Option Nat :=
  match getPalmerNotation universalId with
  | some (q, n) => getUniversalToothId q n
  | none => none

/-- The risk contribution of one site, as a function of the site's pocket
depth, recession and bleeding values (the body of the risk accumulation in
`calculateData`, with `cal = pd + rec` inlined). -/
def siteRiskVals (a r : Nat) (bop : Bool) : Nat :=
  (if a > 4 then a - 4 else 0) + (if r > 2 then r - 2 else 0) +
    (if a + r > 5 then a + r - 5 else 0) + (if bop then 2 else 0)

/-- The risk contribution of one site of a tooth record. -/
def siteRisk (tooth : ToothData) (l : Loc) : Nat :=
  siteRiskVals ((tooth.pocketDepth.get l).getD 0) ((tooth.recession.get l).getD 0)
    ((tooth.bleeding.get l).getD false)

/-- `RaisesOne t t'` holds when `t'` is `t` with exactly one raw input
raised: one site's pocket depth or recession replaced by a value at least
its current (absent defaults to 0), one site's bleeding flag turned from
false to true, or the mobility or a furcation grade replaced by a value at
least its current. -/
inductive RaisesOne : ToothData → ToothData → Prop where
  | pocketDepth (t : ToothData) (l : Loc) (v : Nat)
      (h : (t.pocketDepth.get l).getD 0 ≤ v) :
      RaisesOne t { t with pocketDepth := t.pocketDepth.set l v }
  | recession (t : ToothData) (l : Loc) (v : Nat)
      (h : (t.recession.get l).getD 0 ≤ v) :
      RaisesOne t { t with recession := t.recession.set l v }
  | bleeding (t : ToothData) (l : Loc)
      (h : (t.bleeding.get l).getD false = false) :
      RaisesOne t { t with bleeding := t.bleeding.set l true }
  | mobility (t : ToothData) (v : Nat) (h : t.mobility.getD 0 ≤ v) :
      RaisesOne t { t with mobility := some v }
  | furcationBuccal (t : ToothData) (v : Nat) (h : t.furcationBuccal.getD 0 ≤ v) :
      RaisesOne t { t with furcationBuccal := some v }
  | furcationLingual (t : ToothData) (v : Nat) (h : t.furcationLingual.getD 0 ≤ v) :
      RaisesOne t { t with furcationLingual := some v }

/-! ## Concrete inputs used by the claims -/

def cmdRapid345 : String := "3 4 5"

def cmdFullLingual : String := "lingual rec 2 3 2"

def cmdNavBuccal17 : String := "buccal 1 7"

def cmdMob2 : String := "mob 2"

def cmdNav17 : String := "1 7"

def cmdNav25 : String := "2 5"

def cmdNav38 : String := "3 8"

def cmdNav41 : String := "4 1"

def cmdFullBuccalPd : String := "buccal pd 5 4 5"

def cmdBuckle : String := "buckle one seven"

def cmdCommas : String := "3,4,5"

def wordBuccal : String := "buccal"

/-- A string on which the Normalizer is not idempotent: filler-word removal
consumes the shared middle space of `"a a"`, leaving a lone filler word. -/
def cexRepeatedFiller : String := "a a"

/-- `normalize(normalize t) = normalize t` for one input `t`. -/
abbrev normIdemOn (t : String) : Prop :=
  normalizeCommand (normalizeCommand t) = normalizeCommand t

/-- A missing tooth with populated raw fields (for the missing-tooth claim). -/
def missingTooth : ToothData :=
  { pocketDepth := SiteMap.set {} (.disto, .buccal) 9,
    recession := SiteMap.set {} (.mid, .lingual) 4,
    mobility := some 3,
    isMissing := true }

/-- Session start for the end-to-end scenario: the clinician has some tooth's
panel open (tooth 8), the app's initial active surface is buccal
(`useState('buccal')` in `App.tsx`), and every record is empty. -/
def initialSession : Session :=
  { selected := some 8, surface := some Surface.buccal, chart := fun _ => {} }

/-- The end-to-end scenario of the spec: dictate "buccal 1 7", then "3 4 5",
then "mob 2". -/
def scenarioFinal : Session :=
  stepSession (stepSession (stepSession initialSession cmdNavBuccal17) cmdRapid345) cmdMob2

set_option maxRecDepth 100000

set_option maxHeartbeats 1600000

theorem calcStep_snd (t : ToothData) (acc : SiteMap Nat × Nat) (l : Loc) :
    (calcStep t acc l).2 = acc.2 + siteRisk t l := by
  simp only [calcStep, siteRisk, siteRiskVals]
  split_ifs <;> omega

theorem risk_eq (t : ToothData) :
    (calculateData t).2 =
      siteRisk t (.disto, .buccal) + siteRisk t (.mid, .buccal) +
        siteRisk t (.mesio, .buccal) + siteRisk t (.disto, .lingual) +
        siteRisk t (.mid, .lingual) + siteRisk t (.mesio, .lingual) +
        (t.mobility.getD 0) * 10 + (t.furcationBuccal.getD 0) * 8 +
        (t.furcationLingual.getD 0) * 8 := by
  simp only [calculateData, locations, List.foldl, calcStep_snd]
  omega

theorem siteRiskVals_mono_a (a a2 r : Nat) (b : Bool) (h : a ≤ a2) :
    siteRiskVals a r b ≤ siteRiskVals a2 r b := by
  simp only [siteRiskVals]
  cases b <;> split_ifs <;> omega

theorem siteRiskVals_mono_r (a r r2 : Nat) (b : Bool) (h : r ≤ r2) :
    siteRiskVals a r b ≤ siteRiskVals a r2 b := by
  simp only [siteRiskVals]
  cases b <;> split_ifs <;> omega

theorem siteRiskVals_mono_b (a r : Nat) :
    siteRiskVals a r false ≤ siteRiskVals a r true := by
  simp only [siteRiskVals]
  split_ifs <;> omega

/-- C6: raising any single raw input of a tooth record - one site's pocket
depth or recession, one site's bleeding flag from false to true, the
mobility grade, or a furcation grade - while holding everything else fixed
never decreases the computed riskScore. -/
theorem claim_C6_risk_monotone (t tRaised : ToothData) (h : RaisesOne t tRaised) :
    (calculateData t).2 ≤ (calculateData tRaised).2 := by
  cases h with
  | pocketDepth l v hv =>
    rw [risk_eq, risk_eq]
    obtain ⟨p, s⟩ := l
    cases p <;> cases s
    · simp only [siteRisk, SiteMap.get, SiteMap.set, Option.getD_some] at hv ⊢
      have key := siteRiskVals_mono_a _ v (t.recession.disto_buccal.getD 0) (t.bleeding.disto_buccal.getD false) hv
      omega
    · simp only [siteRisk, SiteMap.get, SiteMap.set, Option.getD_some] at hv ⊢
      have key := siteRiskVals_mono_a _ v (t.recession.disto_lingual.getD 0) (t.bleeding.disto_lingual.getD false) hv
      omega
    · simp only [siteRisk, SiteMap.get, SiteMap.set, Option.getD_some] at hv ⊢
      have key := siteRiskVals_mono_a _ v (t.recession.mid_buccal.getD 0) (t.bleeding.mid_buccal.getD false) hv
      omega
    · simp only [siteRisk, SiteMap.get, SiteMap.set, Option.getD_some] at hv ⊢
      have key := siteRiskVals_mono_a _ v (t.recession.mid_lingual.getD 0) (t.bleeding.mid_lingual.getD false) hv
      omega
    · simp only [siteRisk, SiteMap.get, SiteMap.set, Option.getD_some] at hv ⊢
      have key := siteRiskVals_mono_a _ v (t.recession.mesio_buccal.getD 0) (t.bleeding.mesio_buccal.getD false) hv
      omega
    · simp only [siteRisk, SiteMap.get, SiteMap.set, Option.getD_some] at hv ⊢
      have key := siteRiskVals_mono_a _ v (t.recession.mesio_lingual.getD 0) (t.bleeding.mesio_lingual.getD false) hv
      omega
  | recession l v hv =>
    rw [risk_eq, risk_eq]
    obtain ⟨p, s⟩ := l
    cases p <;> cases s
    · simp only [siteRisk, SiteMap.get, SiteMap.set, Option.getD_some] at hv ⊢
      have key := siteRiskVals_mono_r (t.pocketDepth.disto_buccal.getD 0) _ v (t.bleeding.disto_buccal.getD false) hv
      omega
    · simp only [siteRisk, SiteMap.get, SiteMap.set, Option.getD_some] at hv ⊢
      have key := siteRiskVals_mono_r (t.pocketDepth.disto_lingual.getD 0) _ v (t.bleeding.disto_lingual.getD false) hv
      omega
    · simp only [siteRisk, SiteMap.get, SiteMap.set, Option.getD_some] at hv ⊢
      have key := siteRiskVals_mono_r (t.pocketDepth.mid_buccal.getD 0) _ v (t.bleeding.mid_buccal.getD false) hv
      omega
    · simp only [siteRisk, SiteMap.get, SiteMap.set, Option.getD_some] at hv ⊢
      have key := siteRiskVals_mono_r (t.pocketDepth.mid_lingual.getD 0) _ v (t.bleeding.mid_lingual.getD false) hv
      omega
    · simp only [siteRisk, SiteMap.get, SiteMap.set, Option.getD_some] at hv ⊢
      have key := siteRiskVals_mono_r (t.pocketDepth.mesio_buccal.getD 0) _ v (t.bleeding.mesio_buccal.getD false) hv
      omega
    · simp only [siteRisk, SiteMap.get, SiteMap.set, Option.getD_some] at hv ⊢
      have key := siteRiskVals_mono_r (t.pocketDepth.mesio_lingual.getD 0) _ v (t.bleeding.mesio_lingual.getD false) hv
      omega
  | bleeding l hv =>
    rw [risk_eq, risk_eq]
    obtain ⟨p, s⟩ := l
    cases p <;> cases s
    · simp only [siteRisk, SiteMap.get, SiteMap.set, Option.getD_some] at hv ⊢
      rw [hv]
      have key := siteRiskVals_mono_b (t.pocketDepth.disto_buccal.getD 0) (t.recession.disto_buccal.getD 0)
      omega
    · simp only [siteRisk, SiteMap.get, SiteMap.set, Option.getD_some] at hv ⊢
      rw [hv]
      have key := siteRiskVals_mono_b (t.pocketDepth.disto_lingual.getD 0) (t.recession.disto_lingual.getD 0)
      omega
    · simp only [siteRisk, SiteMap.get, SiteMap.set, Option.getD_some] at hv ⊢
      rw [hv]
      have key := siteRiskVals_mono_b (t.pocketDepth.mid_buccal.getD 0) (t.recession.mid_buccal.getD 0)
      omega
    · simp only [siteRisk, SiteMap.get, SiteMap.set, Option.getD_some] at hv ⊢
      rw [hv]
      have key := siteRiskVals_mono_b (t.pocketDepth.mid_lingual.getD 0) (t.recession.mid_lingual.getD 0)
      omega
    · simp only [siteRisk, SiteMap.get, SiteMap.set, Option.getD_some] at hv ⊢
      rw [hv]
      have key := siteRiskVals_mono_b (t.pocketDepth.mesio_buccal.getD 0) (t.recession.mesio_buccal.getD 0)
      omega
    · simp only [siteRisk, SiteMap.get, SiteMap.set, Option.getD_some] at hv ⊢
      rw [hv]
      have key := siteRiskVals_mono_b (t.pocketDepth.mesio_lingual.getD 0) (t.recession.mesio_lingual.getD 0)
      omega
  | mobility v hv =>
    rw [risk_eq, risk_eq]
    simp only [siteRisk, SiteMap.get, Option.getD_some]
    omega
  | furcationBuccal v hv =>
    rw [risk_eq, risk_eq]
    simp only [siteRisk, SiteMap.get, Option.getD_some]
    omega
  | furcationLingual v hv =>
    rw [risk_eq, risk_eq]
    simp only [siteRisk, SiteMap.get, Option.getD_some]
    omega

theorem navPass_updates {cs : List Char} {r : ParseResult} (h : navPass cs = some r) :
    r.updates = [] := by
  unfold navPass at h
  split at h
  · split at h
    · injection h with h2
      subst h2
      rfl
    · exact Option.noConfusion h
  · exact Option.noConfusion h

theorem rapidPass_shape {ctx : Option Surface} {cs : List Char} {r : ParseResult}
    (h : rapidPass ctx cs = some r) :
    ∃ surf a b c, r =
      { updates :=
          [{ type := .pocketDepth, location := .site (.disto, surf), value := a },
           { type := .pocketDepth, location := .site (.mid, surf), value := b },
           { type := .pocketDepth, location := .site (.mesio, surf), value := c }],
        action := none, contextUpdate := none } := by
  unfold rapidPass at h
  split at h
  · injection h with h2
    exact ⟨_, _, _, _, h2.symm⟩
  · exact Option.noConfusion h

theorem fullPass_shape {cs : List Char} {r : ParseResult} (h : fullPass cs = some r) :
    ∃ kind surf a b c,
      (kind = MeasurementType.pocketDepth ∨ kind = MeasurementType.recession) ∧
      r = { updates :=
              [{ type := kind, location := .site (.disto, surf), value := a },
               { type := kind, location := .site (.mid, surf), value := b },
               { type := kind, location := .site (.mesio, surf), value := c }],
            action := none, contextUpdate := some surf } := by
  unfold fullPass at h
  rcases Option.map_eq_some'.mp h with ⟨x, hx, hr⟩
  subst hr
  refine ⟨_, x.1, x.2.2.1, x.2.2.2.1, x.2.2.2.2, ?_, rfl⟩
  split
  · exact Or.inl rfl
  · exact Or.inr rfl

theorem mobPass_shape {cs : List Char} {r : ParseResult} (h : mobPass cs = some r) :
    ∃ v, r = { updates := [{ type := .mobility, location := .mobilityLoc, value := v }],
               action := none, contextUpdate := none } := by
  unfold mobPass at h
  rcases Option.map_eq_some'.mp h with ⟨x, _, hr⟩
  exact ⟨x, hr.symm⟩

theorem surfacePass_updates (s : String) : (surfacePass s).updates = [] := by
  unfold surfacePass
  split
  · split <;> first | rfl | (split <;> rfl)
  · rfl

theorem parsePasses_shape (ctx : Option Surface) (cmd : String) :
    (parsePasses ctx cmd).updates = [] ∨
      (∃ v, (parsePasses ctx cmd).updates =
        [{ type := .mobility, location := .mobilityLoc, value := v }]) ∨
      (∃ kind surf v1 v2 v3,
        (kind = MeasurementType.pocketDepth ∨ kind = MeasurementType.recession) ∧
        (parsePasses ctx cmd).updates =
          [{ type := kind, location := .site (.disto, surf), value := v1 },
           { type := kind, location := .site (.mid, surf), value := v2 },
           { type := kind, location := .site (.mesio, surf), value := v3 }]) := by
  unfold parsePasses
  cases hnav : navPass cmd.data with
  | some r =>
    exact Or.inl (navPass_updates hnav)
  | none =>
    cases hrap : rapidPass ctx cmd.data with
    | some r =>
      rcases rapidPass_shape hrap with ⟨surf, a, b, c, rfl⟩
      exact Or.inr (Or.inr ⟨.pocketDepth, surf, a, b, c, Or.inl rfl, rfl⟩)
    | none =>
      cases hful : fullPass cmd.data with
      | some r =>
        rcases fullPass_shape hful with ⟨kind, surf, a, b, c, hk, rfl⟩
        exact Or.inr (Or.inr ⟨kind, surf, a, b, c, hk, rfl⟩)
      | none =>
        cases hmob : mobPass cmd.data with
        | some r =>
          rcases mobPass_shape hmob with ⟨v, rfl⟩
          exact Or.inr (Or.inl ⟨v, rfl⟩)
        | none =>
          exact Or.inl (surfacePass_updates _)

/-- C9: for every input string and session context the updates list of
`parseCommand` has length 0, 1 or 3; a length-1 list is a single
whole-tooth Mobility update, and a length-3 list holds three updates of one
kind (PocketDepth or Recession) at the disto, mid, mesio sites of a single
surface, in that order. -/
theorem claim_C9_updates_shape (s : String) (ctx : Option Surface) :
    ((parseCommand s ctx).updates.length = 0 ∨ (parseCommand s ctx).updates.length = 1 ∨
      (parseCommand s ctx).updates.length = 3) ∧
    ((parseCommand s ctx).updates = [] ∨
      (∃ v, (parseCommand s ctx).updates =
        [{ type := .mobility, location := .mobilityLoc, value := v }]) ∨
      (∃ kind surf v1 v2 v3,
        (kind = MeasurementType.pocketDepth ∨ kind = MeasurementType.recession) ∧
        (parseCommand s ctx).updates =
          [{ type := kind, location := .site (.disto, surf), value := v1 },
           { type := kind, location := .site (.mid, surf), value := v2 },
           { type := kind, location := .site (.mesio, surf), value := v3 }])) := by
  have e : parseCommand s ctx = parsePasses ctx (normalizeCommand s) := rfl
  rw [e]
  have hshape := parsePasses_shape ctx (normalizeCommand s)
  refine ⟨?_, hshape⟩
  rcases hshape with h | ⟨v, h⟩ | ⟨k, surf, a, b, c, hk, h⟩ <;> rw [h] <;> simp

/-- C1: the claim states that parsing "3 4 5" yields no updates without an
active surface and exactly three PocketDepth updates (3, 4, 5 at the buccal
disto/mid/mesio sites) with `activeSurface = buccal`. The code disagrees:
the unanchored navigation regex matches "3 4" inside "3 4 5" (quadrant 3,
tooth 4), so under either context the parser returns a navigation to tooth
28 and zero updates; the rapid-entry pass (whose own source comment gives
"3 4 5" as its example) is never reached. This theorem evaluates the code
at the claim's inputs. -/
theorem claim_C1_rapid_entry_eval :
    parseCommand cmdRapid345 (some Surface.buccal) =
      { updates := [], action := some 28, contextUpdate := none } ∧
    parseCommand cmdRapid345 none =
      { updates := [], action := some 28, contextUpdate := none } := by
  decide

/-- C2: the claim states that parsing "lingual rec 2 3 2" yields three
Recession updates at the lingual sites plus `contextUpdate = lingual` for
any prior context. The code disagrees: the unanchored navigation regex
matches "2 3" inside the command (quadrant 2, tooth 3), so the parser
returns a navigation to tooth 11 with no updates and no context update,
for every prior context. This theorem evaluates the code at the claim's
input over all three contexts. -/
theorem claim_C2_full_command_eval :
    ∀ ctx : Option Surface,
      parseCommand cmdFullLingual ctx =
        { updates := [], action := some 11, contextUpdate := none } := by
  decide

/-- C3: the claim states that dictating "buccal 1 7", "3 4 5", "mob 2" on an
empty chart leaves tooth 2 with pocket depths 3/4/5, mobility 2, matching
cal and riskScore 20. The code disagrees: the second command is captured by
the navigation pass (tooth 28), so tooth 2 stays empty with riskScore 0,
and the mobility lands on tooth 28, which ends with riskScore 20. This
theorem evaluates the scenario as the code runs it. -/
theorem claim_C3_scenario_eval :
    scenarioFinal.selected = some 28 ∧
    scenarioFinal.chart 2 = ({} : ToothData) ∧
    (processTooth (scenarioFinal.chart 2)).2 = 0 ∧
    (scenarioFinal.chart 28).mobility = some 2 ∧
    (processTooth (scenarioFinal.chart 28)).2 = 20 := by
  decide

/-- C4, counterexample: the Normalizer is not idempotent for every input.
Filler-word removal replaces `\s a \s` globally but non-overlapping, so
normalizing "a a" consumes the shared middle space, leaves the second "a",
and yields "a"; normalizing again removes it and yields "". -/
theorem claim_C4_idempotence_counterexample :
    ¬ normIdemOn cexRepeatedFiller := by
  decide

/-- C4, amended: the Normalizer is idempotent on the documented command
forms (navigation, rapid triplet, full command, mobility, synonym and
delimiter variants, bare surface word), though not on arbitrary strings. -/
theorem claim_C4_idempotence_amended :
    normIdemOn cmdNavBuccal17 ∧ normIdemOn cmdRapid345 ∧ normIdemOn cmdFullLingual ∧
    normIdemOn cmdMob2 ∧ normIdemOn cmdFullBuccalPd ∧ normIdemOn cmdBuckle ∧
    normIdemOn cmdCommas ∧ normIdemOn wordBuccal := by
  decide

/-- C5: `getUniversalToothId` realizes the spec's quadrant formula
(q=1 gives 9-n, q=2 gives 8+n, q=3 gives 24+n, q=4 gives 25-n) on the full
1-4 x 1-8 range, and parsing "1 7" / "2 5" / "3 8" / "4 1" navigates to
teeth 2 / 13 / 32 / 24 under every session context. -/
theorem claim_C5_navigation_mapping :
    (∀ q n : Nat, 1 ≤ q → q ≤ 4 → 1 ≤ n → n ≤ 8 →
        getUniversalToothId q n = some (specToothIdFormula q n)) ∧
    (∀ ctx : Option Surface,
        (parseCommand cmdNav17 ctx).action = some 2 ∧
        (parseCommand cmdNav25 ctx).action = some 13 ∧
        (parseCommand cmdNav38 ctx).action = some 32 ∧
        (parseCommand cmdNav41 ctx).action = some 24) := by
  constructor
  · intro q n h1 h2 h3 h4
    interval_cases q <;> interval_cases n <;> rfl
  · decide

/-- C5: `getUniversalToothId` realizes the spec's quadrant formula
(q=1 gives 9-n, q=2 gives 8+n, q=3 gives 24+n, q=4 gives 25-n) on the full
1-4 x 1-8 range, and parsing "1 7" / "2 5" / "3 8" / "4 1" navigates to
teeth 2 / 13 / 32 / 24 under every session context. -/
theorem claim_C5_navigation_mapping_witness :
    getUniversalToothId 1 7 = some (specToothIdFormula 1 7) ∧
    (parseCommand cmdNav17 none).action = some 2 :=
  ⟨claim_C5_navigation_mapping.1 1 7 (by decide) (by decide) (by decide) (by decide),
   (claim_C5_navigation_mapping.2 none).1⟩

/-- C6: raising any single raw input of a tooth record - one site's pocket
depth or recession, one site's bleeding flag from false to true, the
mobility grade, or a furcation grade - while holding everything else fixed
never decreases the computed riskScore. -/
theorem claim_C6_risk_monotone_witness :
    (calculateData {}).2 ≤
      (calculateData { pocketDepth := SiteMap.set {} (.disto, .buccal) 7 }).2 :=
  claim_C6_risk_monotone _ _ (RaisesOne.pocketDepth {} (.disto, .buccal) 7 (by decide))

/-- C7: a tooth record flagged missing always yields the empty cal mapping
(every site absent, not zero) and riskScore 0, whatever its raw
measurement fields hold. -/
theorem claim_C7_missing_shortcut (t : ToothData) (h : t.isMissing = true) :
    processTooth t = ({}, 0) := by
  simp [processTooth, h]

/-- C7: a tooth record flagged missing always yields the empty cal mapping
(every site absent, not zero) and riskScore 0, whatever its raw
measurement fields hold. -/
theorem claim_C7_missing_shortcut_witness :
    processTooth missingTooth = ({}, 0) :=
  claim_C7_missing_shortcut missingTooth rfl

/-- C8: the Calculator is total - it returns a result for every tooth
record - and on a record with no recorded measurements it returns a cal
mapping holding 0 at all six sites and riskScore 0. -/
theorem claim_C8_calculator_total :
    (∀ t : ToothData, ∃ result : SiteMap Nat × Nat, calculateData t = result) ∧
    (calculateData {}).1 =
      { disto_buccal := some 0, mid_buccal := some 0, mesio_buccal := some 0,
        disto_lingual := some 0, mid_lingual := some 0, mesio_lingual := some 0 } ∧
    (calculateData {}).2 = 0 := by
  refine ⟨fun t => ⟨_, rfl⟩, ?_, ?_⟩ <;> decide

/-- C10: `getPalmerNotation` is a right inverse of `getUniversalToothId`:
for every Universal id in 1-32 it returns a quadrant/tooth pair (never
null) that `getUniversalToothId` maps back to the original id. -/
theorem claim_C10_palmer_right_inverse (n : Nat) (h1 : 1 ≤ n) (h2 : n ≤ 32) :
    ( getPalmerNotation n).isSome = true ∧ palmerRoundTrip n = some n := by
  interval_cases n <;> exact ⟨rfl, rfl⟩

/-- C10: `getPalmerNotation` is a right inverse of `getUniversalToothId`:
for every Universal id in 1-32 it returns a quadrant/tooth pair (never
null) that `getUniversalToothId` maps back to the original id. -/
theorem claim_C10_palmer_right_inverse_witness :
    ( getPalmerNotation 2).isSome = true ∧ palmerRoundTrip 2 = some 2 :=
  claim_C10_palmer_right_inverse 2 (by decide) (by decide)
